import Mathlib

/-!
Verification of the trading-engine core: order-book reconstruction
(`OrderBookManager` in `backend/websockets/market_data/binance_stream.py`),
risk gating (`RiskManager` in `backend/core/risk/risk_management.py`),
position PnL / liquidation (`backend/models/position.py`), and the signal
lifecycle (`backend/models/signal.py`,
`backend/services/trading/signal_processor.py`).

Prices, quantities and timestamps are modelled as rationals; Python dicts
keyed by symbol are modelled as association lists.  Python truthiness on
numeric fields (`if x:` is false for `None` and for `0`) is modelled
explicitly wherever the source relies on it.
-/

namespace Top1

/-- Association-list lookup, modelling Python `dict.get` / `in`. -/
def lookup {α : Type} : List (String × α) → String → Option α
  | [], _ => none
  | (k, v) :: rest, key => if k = key then some v else lookup rest key

/-- Association-list store, modelling Python `dict[key] = value`:
overwrites the existing binding or appends a new one. -/
def setEntry {α : Type} : List (String × α) → String → α → List (String × α)
  | [], key, v => [(key, v)]
  | (k, w) :: rest, key, v =>
      if k = key then (key, v) :: rest else (k, w) :: setEntry rest key v

theorem lookup_setEntry_self {α : Type} (l : List (String × α)) (k : String) (v : α) :
    lookup (setEntry l k v) k = some v := by
  induction l with
  | nil => simp [setEntry, lookup]
  | cons hd tl ih =>
      by_cases h : hd.1 = k
      · simp [setEntry, h, lookup]
      · simp [setEntry, h, lookup, ih]

/-- One price level: a `(price, quantity)` pair. -/
abbrev PriceLevel := ℚ × ℚ

/-- Stable insertion of a level into a list sorted by the strict order
`lt`: the new element goes before the first element not strictly below it,
so elements with equal price keep their relative order. -/
def insertLevel (lt : PriceLevel → PriceLevel → Bool) (u : PriceLevel) :
    List PriceLevel → List PriceLevel
  | [] => [u]
  | l :: rest => if lt l u then l :: insertLevel lt u rest else u :: l :: rest

/-- Sort levels by price, descending when `is_bid` — Python
`levels.sort(key=lambda x: x[0], reverse=is_bid)`, a stable sort, modelled
as stable insertion sort. -/
def sortLevels (is_bid : Bool) (levels : List PriceLevel) : List PriceLevel :=
  levels.foldr
    (insertLevel (fun a b =>
      if is_bid then decide (b.1 < a.1) else decide (a.1 < b.1))) []

/-- Replace the first level with matching price, else append
(the `for ... else` loop at the end of `_update_price_level`). -/
def replaceOrAppend : List PriceLevel → PriceLevel → List PriceLevel
  | [], u => [u]
  | l :: rest, u =>
      if l.1 = u.1 then u :: rest else l :: replaceOrAppend rest u

/-- `OrderBookManager._update_price_level`: quantity 0 deletes the price
level, otherwise the level is replaced or appended and the list re-sorted. -/
def update_price_level (levels : List PriceLevel) (upd : PriceLevel)
    (is_bid : Bool) : List PriceLevel :=
  if upd.2 = 0 then levels.filter (fun l => decide (l.1 ≠ upd.1))
  else sortLevels is_bid (replaceOrAppend levels upd)

/-- One symbol's order book: the `{'bids': [], 'asks': [], 'last_update': None}`
dict kept in `OrderBookManager.orderbooks`. -/
structure OrderBook where
  bids : List PriceLevel
  asks : List PriceLevel
  last_update : Option ℚ
  deriving DecidableEq

/-- The dict stored by `OrderBookManager.update_best_positions`. -/
structure BestPositions where
  bid_price : ℚ
  bid_qty : ℚ
  ask_price : ℚ
  ask_qty : ℚ
  spread : ℚ
  spread_percentage : ℚ
  mid_price : ℚ
  update_id : ℕ
  timestamp : ℚ
  deriving DecidableEq

/-- State of `OrderBookManager`: per-symbol books, per-symbol best bid/ask
dicts, and per-symbol last applied update id. -/
structure OrderBookManager where
  orderbooks : List (String × OrderBook)
  best_positions : List (String × BestPositions)
  last_update_ids : List (String × ℕ)
  deriving DecidableEq

/-- `self.depth_cache_size = 1000`. -/
def depth_cache_size : ℕ := 1000

/-- The fresh manager built by `OrderBookManager.__init__`. -/
def OrderBookManager.init : OrderBookManager :=
  { orderbooks := [], best_positions := [], last_update_ids := [] }

/-- The `if symbol not in self.orderbooks:` initialisation block at the top
of `update_orderbook`. -/
def init_book (m : OrderBookManager) (symbol : String) : OrderBookManager :=
  if (lookup m.orderbooks symbol).isSome then m
  else { m with orderbooks := setEntry m.orderbooks symbol ⟨[], [], none⟩ }

/-- The body of `update_orderbook` past the sequence check: apply each bid
and ask through `_update_price_level`, re-sort and trim both sides to
`depth_cache_size`, then record `update_id` and `event_time`. -/
def apply_diff (m : OrderBookManager) (symbol : String)
    (bids asks : List PriceLevel) (update_id : ℕ) (event_time : ℚ) :
    OrderBookManager :=
  let ob := (lookup m.orderbooks symbol).getD ⟨[], [], none⟩
  let newBids := bids.foldl (fun acc b => update_price_level acc b true) ob.bids
  let newAsks := asks.foldl (fun acc a => update_price_level acc a false) ob.asks
  let trimmedBids := (sortLevels true newBids).take depth_cache_size
  let trimmedAsks := (sortLevels false newAsks).take depth_cache_size
  { m with
      orderbooks :=
        setEntry m.orderbooks symbol ⟨trimmedBids, trimmedAsks, some event_time⟩,
      last_update_ids := setEntry m.last_update_ids symbol update_id }

/-- `OrderBookManager.update_orderbook`: initialise the book if the symbol
is new, skip updates with `update_id <= self.last_update_ids[symbol]`,
otherwise apply the diff. -/
def update_orderbook (m : OrderBookManager) (symbol : String)
    (bids asks : List PriceLevel) (update_id : ℕ) (event_time : ℚ) :
    OrderBookManager :=
  let m1 := init_book m symbol
  match lookup m1.last_update_ids symbol with
  | some lastId =>
      if update_id ≤ lastId then m1
      else apply_diff m1 symbol bids asks update_id event_time
  | none => apply_diff m1 symbol bids asks update_id event_time

/-- `OrderBookManager.update_best_positions`: unconditional overwrite of the
best bid/ask dict for the symbol (`now` stands for `datetime.utcnow()`). -/
def update_best_positions (m : OrderBookManager) (symbol : String)
    (bid_price bid_qty ask_price ask_qty : ℚ) (update_id : ℕ) (now : ℚ) :
    OrderBookManager :=
  { m with
      best_positions := setEntry m.best_positions symbol
        { bid_price := bid_price
          bid_qty := bid_qty
          ask_price := ask_price
          ask_qty := ask_qty
          spread := ask_price - bid_price
          spread_percentage := (ask_price - bid_price) / ask_price * 100
          mid_price := (ask_price + bid_price) / 2
          update_id := update_id
          timestamp := now } }

/-- `OrderBookManager.get_orderbook`: `self.orderbooks.get(symbol)`. -/
def get_orderbook (m : OrderBookManager) (symbol : String) : Option OrderBook :=
  lookup m.orderbooks symbol

/-- `OrderBookManager.get_best_positions`: `self.best_positions.get(symbol)`. -/
def get_best_positions (m : OrderBookManager) (symbol : String) :
    Option BestPositions :=
  lookup m.best_positions symbol

/-- Order side, from the `side.upper() == 'BUY'` branch of
`calculate_order_impact`. -/
inductive Side : Type
  | buy : Side
  | sell : Side
  deriving DecidableEq

/-- Result dict of `calculate_order_impact`: either the partial-fill dict
(`full_fill_possible: False`) or the full-fill dict
(`full_fill_possible: True`). -/
inductive ImpactResult : Type
  | partialFill (fillable_quantity : ℚ) (levels_needed : ℕ)
      (unfilled_quantity : ℚ) : ImpactResult
  | fullFill (average_price slippage_percent total_value : ℚ)
      (levels_used : ℕ) : ImpactResult
  deriving DecidableEq

/-- The level walk in `calculate_order_impact`: for each `(price, qty)`
level, break once `remaining_qty <= 0`, else fill `min(remaining, qty)`,
accumulate value and count the level.  Returns
`(remaining_qty, total_value, levels_used)`. -/
def walk_levels : List PriceLevel → ℚ → ℚ → ℕ → ℚ × ℚ × ℕ
  | [], remaining, total_value, levels_used => (remaining, total_value, levels_used)
  | (price, level_qty) :: rest, remaining, total_value, levels_used =>
      if remaining ≤ 0 then (remaining, total_value, levels_used)
      else
        let fill_qty := min remaining level_qty
        walk_levels rest (remaining - fill_qty)
          (total_value + fill_qty * price) (levels_used + 1)

/-- `OrderBookManager.calculate_order_impact`.  `none` models every path on
which the Python function returns `None`: unknown symbol, and the paths on
which the `try` body raises and the `except` handler returns `None`
(`total_value / quantity` with `quantity == 0`, `levels[0]` on an empty
side, and the slippage division when the top-of-book price is `0`). -/
def calculate_order_impact (m : OrderBookManager) (symbol : String)
    (side : Side) (quantity : ℚ) : Option ImpactResult :=
  match lookup m.orderbooks symbol with
  | none => none
  | some orderbook =>
      let levels := if side = Side.buy then orderbook.asks else orderbook.bids
      let w := walk_levels levels quantity 0 0
      let remaining_qty := w.1
      let total_value := w.2.1
      let levels_used := w.2.2
      if 0 < remaining_qty then
        some (ImpactResult.partialFill (quantity - remaining_qty) levels_used
          remaining_qty)
      else
        if quantity = 0 then none
        else
          match levels with
          | [] => none
          | top :: _ =>
              if top.1 = 0 then none
              else
                let avg_price := total_value / quantity
                some (ImpactResult.fullFill avg_price
                  ((avg_price - top.1) / top.1 * 100) total_value levels_used)

/-! ### Risk management (`backend/core/risk/risk_management.py`) -/

/-- `settings.MAX_POSITION_SIZE = 0.05` (`backend/core/config/settings.py`). -/
def MAX_POSITION_SIZE : ℚ := 5 / 100

/-- `settings.MAX_LEVERAGE = 20` (`backend/core/config/settings.py`). -/
def MAX_LEVERAGE : ℤ := 20

/-- `RiskManager.max_daily_loss = Decimal('0.02')`. -/
def max_daily_loss : ℚ := 2 / 100

/-- `RiskManager.max_positions = 10`. -/
def max_positions : ℕ := 10

/-- `RiskManager._get_open_positions`: the source body returns `[]`
(`# Implement fetching open positions`). -/
def get_open_positions : List String := []

/-- `RiskManager._calculate_daily_pnl`: the source body returns
`Decimal('0')`. -/
def calculate_daily_pnl : ℚ := 0

/-- `RiskManager._check_daily_loss_limit`:
`daily_pnl < (-self.max_daily_loss)`. -/
def check_daily_loss_limit : Bool :=
  decide (calculate_daily_pnl < -max_daily_loss)

/-- `RiskManager._check_correlation_risk`: the source body returns `False`. -/
def check_correlation_risk (_symbol : String) : Bool := false

/-- The distinct rejection reasons returned by
`RiskManager.validate_new_position`, in source order, plus the success
message `"Position validated"`. -/
inductive ValidationOutcome : Type
  | leverageExceedsMax : ValidationOutcome
  | positionSizeExceedsMax : ValidationOutcome
  | maxPositionsReached : ValidationOutcome
  | dailyLossLimitReached : ValidationOutcome
  | correlationRisk : ValidationOutcome
  | validated : ValidationOutcome
  deriving DecidableEq

/-- `RiskManager.validate_new_position(symbol, size, leverage,
account_balance) -> tuple[bool, str]`, with each distinct reason string
represented by a `ValidationOutcome` constructor. -/
def validate_new_position (symbol : String) (size : ℚ) (leverage : ℤ)
    (account_balance : ℚ) : Bool × ValidationOutcome :=
  if MAX_LEVERAGE < leverage then (false, ValidationOutcome.leverageExceedsMax)
  else
    let max_position_size := account_balance * MAX_POSITION_SIZE
    if max_position_size < size then
      (false, ValidationOutcome.positionSizeExceedsMax)
    else if max_positions ≤ get_open_positions.length then
      (false, ValidationOutcome.maxPositionsReached)
    else if check_daily_loss_limit then
      (false, ValidationOutcome.dailyLossLimitReached)
    else if check_correlation_risk symbol then
      (false, ValidationOutcome.correlationRisk)
    else (true, ValidationOutcome.validated)

/-! ### Position model (`backend/models/position.py`) -/

/-- `PositionSide`. -/
inductive PositionSide : Type
  | LONG : PositionSide
  | SHORT : PositionSide
  deriving DecidableEq

/-- `PositionStatus`. -/
inductive PositionStatus : Type
  | OPEN : PositionStatus
  | CLOSED : PositionStatus
  | LIQUIDATED : PositionStatus
  deriving DecidableEq

/-- The columns of `Position` used by `calculate_liquidation_price` and
`update_pnl`.  Nullable numeric columns are `Option ℚ`. -/
structure Position where
  side : PositionSide
  status : PositionStatus
  entry_price : ℚ
  mark_price : Option ℚ
  size : ℚ
  leverage : ℤ
  unrealized_pnl : ℚ
  realized_pnl : ℚ
  total_pnl : ℚ
  roe : Option ℚ
  deriving DecidableEq

/-- `Position.calculate_liquidation_price(maintenance_margin_rate=0.01)`:
long → `entry_price * (1 - (1 / leverage) + maintenance_margin_rate)`,
short → `entry_price * (1 + (1 / leverage) - maintenance_margin_rate)`. -/
def calculate_liquidation_price (p : Position)
    (maintenance_margin_rate : ℚ) : ℚ :=
  if p.side = PositionSide.LONG then
    p.entry_price * (1 - 1 / (p.leverage : ℚ) + maintenance_margin_rate)
  else
    p.entry_price * (1 + 1 / (p.leverage : ℚ) - maintenance_margin_rate)

/-- `Position.update_pnl`: returns early when `mark_price` is `None` or `0`
(Python `if not self.mark_price:`); otherwise recomputes `unrealized_pnl`,
`total_pnl`, and — when `initial_margin` is non-zero (Python
`if initial_margin:`) — `roe = (total_pnl / initial_margin) * 100`. -/
def update_pnl (p : Position) : Position :=
  match p.mark_price with
  | none => p
  | some mark =>
      if mark = 0 then p
      else
        let position_value := p.size * mark
        let entry_value := p.size * p.entry_price
        let u :=
          if p.side = PositionSide.LONG then position_value - entry_value
          else entry_value - position_value
        let t := u + p.realized_pnl
        let initial_margin := entry_value / (p.leverage : ℚ)
        let r :=
          if initial_margin = 0 then p.roe
          else some (t / initial_margin * 100)
        { p with unrealized_pnl := u, total_pnl := t, roe := r }

/-! ### Signal model (`backend/models/signal.py`) and the signal pipeline
(`backend/services/trading/signal_processor.py`) -/

/-- `SignalType`. -/
inductive SignalType : Type
  | ENTRY : SignalType
  | EXIT : SignalType
  | STOP_LOSS : SignalType
  | TAKE_PROFIT : SignalType
  deriving DecidableEq

/-- `SignalStatus`. -/
inductive SignalStatus : Type
  | PENDING : SignalStatus
  | EXECUTED : SignalStatus
  | FAILED : SignalStatus
  | EXPIRED : SignalStatus
  | CANCELLED : SignalStatus
  deriving DecidableEq

/-- The columns of `Signal` used by `is_active`, `calculate_quantity` and
the processor's entry sizing.  Nullable columns are `Option`; `created_at`
and timestamps are seconds, `time_validity` is minutes. -/
structure Signal where
  type : SignalType
  status : SignalStatus
  entry_price : Option ℚ
  stop_loss : Option ℚ
  risk_percentage : Option ℚ
  quantity : Option ℚ
  leverage : Option ℤ
  time_validity : Option ℤ
  created_at : Option ℚ
  deriving DecidableEq

/-- Python `self.leverage or 1`: `None` and `0` both give `1`. -/
def leverage_or_one (leverage : Option ℤ) : ℚ :=
  match leverage with
  | none => 1
  | some l => if l = 0 then 1 else (l : ℚ)

/-- `Signal.is_active` at time `now` (seconds): `False` unless the status
is `PENDING`; when `time_validity` and `created_at` are both truthy
(non-`None`, and `time_validity ≠ 0`), active iff
`(now - created_at) / 60 <= time_validity`; otherwise `True`. -/
def is_active (s : Signal) (now : ℚ) : Bool :=
  if s.status ≠ SignalStatus.PENDING then false
  else
    match s.time_validity, s.created_at with
    | some tv, some c =>
        if tv = 0 then true
        else decide ((now - c) / 60 ≤ (tv : ℚ))
    | _, _ => true

/-- `Signal.calculate_quantity(account_balance)`: returns `0.0` unless
`entry_price`, `stop_loss` and `risk_percentage` are all truthy (Python
`all([...])` is false on `None` and on `0`); otherwise
`(balance * risk_percentage / 100) / |entry - stop| * (leverage or 1)`. -/
def calculate_quantity (s : Signal) (account_balance : ℚ) : ℚ :=
  match s.entry_price, s.stop_loss, s.risk_percentage with
  | some e, some sl, some rp =>
      if e = 0 ∨ sl = 0 ∨ rp = 0 then 0
      else
        let risk_amount := account_balance * (rp / 100)
        let price_difference := |e - sl|
        let base_quantity := risk_amount / price_difference
        base_quantity * leverage_or_one s.leverage
  | _, _, _ => 0

/-- The position-size computation at the top of
`SignalProcessor._execute_entry_signal`: when `signal.risk_percentage` is
truthy, `(balance * rp / 100) / |entry - stop| * (leverage or 1)`; else
`signal.quantity`.  `none` models the paths that raise
(`float(None)` and division by zero when `entry == stop`). -/
def entry_position_size (s : Signal) (available_balance : ℚ) : Option ℚ :=
  match s.risk_percentage with
  | some rp =>
      if rp = 0 then s.quantity
      else
        match s.entry_price, s.stop_loss with
        | some e, some sl =>
            if e = sl then none
            else
              let risk_amount := available_balance * (rp / 100)
              let price_difference := |e - sl|
              let base_size := risk_amount / price_difference
              some (base_size * leverage_or_one s.leverage)
        | _, _ => none
  | none => s.quantity

/-- The status outcome of `SignalProcessor.execute_signal_strategy` for a
found signal, evaluated at time `now`.  The three Booleans abstract the
I/O-dependent checks in source order: `market_ok` is
`_validate_market_conditions`, `risk_ok` is `_check_risk_management`, and
`exec_ok` is whether order placement succeeds (an exception ends in the
`except` handler, which sets `FAILED`).  An inactive signal is set to
`EXPIRED` before any of those run. -/
def execute_signal_strategy (s : Signal) (now : ℚ)
    (market_ok risk_ok exec_ok : Bool) : SignalStatus :=
  if ¬ is_active s now then SignalStatus.EXPIRED
  else if ¬ market_ok then SignalStatus.CANCELLED
  else if ¬ risk_ok then SignalStatus.CANCELLED
  else if ¬ exec_ok then SignalStatus.FAILED
  else SignalStatus.EXECUTED

/-! ### Helper lemmas -/

theorem init_book_ids (m : OrderBookManager) (sym sym2 : String) :
    lookup (init_book m sym).last_update_ids sym2 = lookup m.last_update_ids sym2 := by
  unfold init_book
  split <;> rfl

theorem init_book_best (m : OrderBookManager) (sym sym2 : String) :
    lookup (init_book m sym).best_positions sym2 = lookup m.best_positions sym2 := by
  unfold init_book
  split <;> rfl

theorem init_book_of_isSome (m : OrderBookManager) (sym : String)
    (h : (lookup m.orderbooks sym).isSome = true) : init_book m sym = m := by
  unfold init_book
  simp [h]

theorem init_book_book_isSome (m : OrderBookManager) (sym : String) :
    (lookup (init_book m sym).orderbooks sym).isSome = true := by
  unfold init_book
  by_cases h : (lookup m.orderbooks sym).isSome = true
  · simp [h]
  · simp [h, lookup_setEntry_self]

theorem apply_diff_lookup_id (m : OrderBookManager) (sym : String)
    (bids asks : List PriceLevel) (uid : ℕ) (t : ℚ) :
    lookup (apply_diff m sym bids asks uid t).last_update_ids sym = some uid := by
  simp [apply_diff, lookup_setEntry_self]

theorem apply_diff_book_isSome (m : OrderBookManager) (sym : String)
    (bids asks : List PriceLevel) (uid : ℕ) (t : ℚ) :
    (lookup (apply_diff m sym bids asks uid t).orderbooks sym).isSome = true := by
  simp [apply_diff, lookup_setEntry_self]

theorem apply_diff_best (m : OrderBookManager) (sym : String)
    (bids asks : List PriceLevel) (uid : ℕ) (t : ℚ) :
    (apply_diff m sym bids asks uid t).best_positions = m.best_positions := rfl

theorem update_orderbook_eq (m : OrderBookManager) (sym : String)
    (bids asks : List PriceLevel) (uid : ℕ) (t : ℚ) :
    update_orderbook m sym bids asks uid t =
      match lookup m.last_update_ids sym with
      | some lastId =>
          if uid ≤ lastId then init_book m sym
          else apply_diff (init_book m sym) sym bids asks uid t
      | none => apply_diff (init_book m sym) sym bids asks uid t := by
  simp only [update_orderbook, init_book_ids]

theorem update_orderbook_lookup_id (m : OrderBookManager) (sym : String)
    (bids asks : List PriceLevel) (uid : ℕ) (t : ℚ) :
    ∃ v, lookup (update_orderbook m sym bids asks uid t).last_update_ids sym = some v
      ∧ uid ≤ v := by
  rw [update_orderbook_eq]
  cases h : lookup m.last_update_ids sym with
  | none =>
      simp only [h]
      exact ⟨uid, apply_diff_lookup_id _ _ _ _ _ _, le_refl uid⟩
  | some lastId =>
      simp only [h]
      by_cases hle : uid ≤ lastId
      · rw [if_pos hle]
        exact ⟨lastId, by rw [init_book_ids]; exact h, hle⟩
      · rw [if_neg hle]
        exact ⟨uid, apply_diff_lookup_id _ _ _ _ _ _, le_refl uid⟩

theorem update_orderbook_book_isSome (m : OrderBookManager) (sym : String)
    (bids asks : List PriceLevel) (uid : ℕ) (t : ℚ) :
    (lookup (update_orderbook m sym bids asks uid t).orderbooks sym).isSome = true := by
  rw [update_orderbook_eq]
  cases h : lookup m.last_update_ids sym with
  | none =>
      simp only [h]
      exact apply_diff_book_isSome _ _ _ _ _ _
  | some lastId =>
      simp only [h]
      by_cases hle : uid ≤ lastId
      · rw [if_pos hle]
        exact init_book_book_isSome m sym
      · rw [if_neg hle]
        exact apply_diff_book_isSome _ _ _ _ _ _

theorem update_orderbook_skip (m : OrderBookManager) (sym : String)
    (bids asks : List PriceLevel) (uid : ℕ) (t : ℚ) (v : ℕ)
    (hbook : (lookup m.orderbooks sym).isSome = true)
    (hid : lookup m.last_update_ids sym = some v) (hle : uid ≤ v) :
    update_orderbook m sym bids asks uid t = m := by
  rw [update_orderbook_eq]
  simp only [hid]
  rw [if_pos hle]
  exact init_book_of_isSome m sym hbook

/-! ### Claim theorems -/

/-- C3: for every order-book state and every diff `(bids, asks, update_id)`,
applying the same diff twice in succession through `update_orderbook`
produces the same manager state as applying it once — the second
application, whose `update_id` is at most the stored last update id, is a
no-op. -/
theorem orderbook_diff_idempotent (m : OrderBookManager) (symbol : String)
    (bids asks : List PriceLevel) (update_id : ℕ) (event_time : ℚ) :
    update_orderbook (update_orderbook m symbol bids asks update_id event_time)
        symbol bids asks update_id event_time
      = update_orderbook m symbol bids asks update_id event_time := by
  obtain ⟨v, hv, hle⟩ := update_orderbook_lookup_id m symbol bids asks update_id event_time
  exact update_orderbook_skip _ symbol bids asks update_id event_time v
    (update_orderbook_book_isSome m symbol bids asks update_id event_time) hv hle

/-- C1 (amended): the manager keeps no stale flag.  A diff whose
`update_id` exceeds the stored last update id is applied even when it is
not contiguous with the expected next id (`n + 1`): the stored id jumps to
the diff's id, the book remains readable through `get_orderbook`, and
`get_best_positions` is unaffected — reads are never reported unavailable
after a gap. -/
theorem gapped_diff_applied (m : OrderBookManager) (symbol : String)
    (bids asks : List PriceLevel) (update_id n : ℕ) (event_time : ℚ)
    (hn : lookup m.last_update_ids symbol = some n) (hgap : n < update_id) :
    lookup (update_orderbook m symbol bids asks update_id event_time).last_update_ids
        symbol = some update_id
    ∧ get_orderbook (update_orderbook m symbol bids asks update_id event_time)
        symbol ≠ none
    ∧ get_best_positions (update_orderbook m symbol bids asks update_id event_time)
        symbol = get_best_positions m symbol := by
  have hnle : ¬ update_id ≤ n := not_le.mpr hgap
  rw [update_orderbook_eq]
  simp only [hn]
  rw [if_neg hnle]
  refine ⟨apply_diff_lookup_id _ _ _ _ _ _, ?_, ?_⟩
  · have h := apply_diff_book_isSome (init_book m symbol) symbol bids asks update_id event_time
    unfold get_orderbook
    intro hcontra
    rw [hcontra] at h
    simp at h
  · unfold get_best_positions
    rw [apply_diff_best, init_book_best]

/-- The manager after the snapshot-style first update at id 100
(spec scenario for gap detection). -/
def c1_snapshot : OrderBookManager :=
  update_orderbook OrderBookManager.init "BTCUSDT"
    [((100 : ℚ), (1 : ℚ))] [((101 : ℚ), (1 : ℚ))] 100 0

/-- The same manager after a diff at id 105 (expected next id was 101 — a
sequence gap). -/
def c1_after_gap : OrderBookManager :=
  update_orderbook c1_snapshot "BTCUSDT"
    [((99 : ℚ), (2 : ℚ))] [((102 : ℚ), (2 : ℚ))] 105 1

/-- C1 counterexample: after a snapshot at id 100 followed by a diff at id
105 (a gap — the expected next id was 101), the book is not quarantined:
the gapped diff is applied into the book, the stored last update id becomes
105, and `get_orderbook` still returns the book rather than reporting it
unavailable.  No stale flag exists in the manager state. -/
theorem gap_not_marked_stale_cex :
    get_orderbook c1_after_gap "BTCUSDT"
      = some ⟨[((100 : ℚ), (1 : ℚ)), ((99 : ℚ), (2 : ℚ))],
              [((101 : ℚ), (1 : ℚ)), ((102 : ℚ), (2 : ℚ))], some 1⟩
    ∧ lookup c1_after_gap.last_update_ids "BTCUSDT" = some 105 := by
  constructor <;> rfl

/-- Total quantity available on a side. -/
def sum_qty (levels : List PriceLevel) : ℚ := (levels.map Prod.snd).sum

/-- The book side `calculate_order_impact` consumes:
asks for a buy, bids for a sell. -/
def relevant_side (ob : OrderBook) (side : Side) : List PriceLevel :=
  if side = Side.buy then ob.asks else ob.bids

theorem sum_qty_nonneg (levels : List PriceLevel)
    (h : ∀ l ∈ levels, 0 ≤ l.2) : 0 ≤ sum_qty levels := by
  unfold sum_qty
  apply List.sum_nonneg
  intro x hx
  obtain ⟨l, hl, rfl⟩ := List.mem_map.mp hx
  exact h l hl

theorem walk_levels_exhausts (levels : List PriceLevel) (q tv : ℚ) (used : ℕ)
    (hnn : ∀ l ∈ levels, 0 ≤ l.2) (hlt : sum_qty levels < q) :
    (walk_levels levels q tv used).1 = q - sum_qty levels
    ∧ (walk_levels levels q tv used).2.2 = used + levels.length := by
  induction levels generalizing q tv used with
  | nil => simp [walk_levels, sum_qty]
  | cons hd tl ih =>
      obtain ⟨p, lq⟩ := hd
      have hlq : 0 ≤ lq := hnn (p, lq) (List.mem_cons_self _ _)
      have htl : ∀ l ∈ tl, 0 ≤ l.2 := fun l hl => hnn l (List.mem_cons_of_mem _ hl)
      have hsum : sum_qty ((p, lq) :: tl) = lq + sum_qty tl := by
        simp [sum_qty]
      have hsumtl : 0 ≤ sum_qty tl := sum_qty_nonneg tl htl
      have hq0 : 0 < q := lt_of_le_of_lt (by rw [hsum] at hlt ⊢; positivity) hlt
      have hqle : ¬ q ≤ 0 := not_le.mpr hq0
      have hmin : min q lq = lq := by
        apply min_eq_right
        rw [hsum] at hlt
        nlinarith
      have hrec : sum_qty tl < q - lq := by
        rw [hsum] at hlt
        linarith
      unfold walk_levels
      rw [if_neg hqle, hmin]
      obtain ⟨h1, h2⟩ := ih (q - lq) (tv + lq * p) (used + 1) htl hrec
      refine ⟨?_, ?_⟩
      · rw [h1, hsum]
        ring
      · rw [h2]
        simp [Nat.add_assoc, Nat.add_comm 1]

/-- C5: for every symbol with a stored order book and every positive
requested quantity exceeding the total quantity available on the relevant
side (each stored level quantity being non-negative, per the book
invariant), `calculate_order_impact` returns the structured partial-fill
result — `full_fill_possible = False`, `fillable_quantity` equal to the
whole side, `unfilled_quantity` equal to the unfillable remainder and
strictly positive — rather than failing. -/
theorem impact_insufficient_depth (m : OrderBookManager) (symbol : String)
    (side : Side) (quantity : ℚ) (ob : OrderBook)
    (hob : lookup m.orderbooks symbol = some ob)
    (hq : 0 < quantity)
    (hnn : ∀ l ∈ relevant_side ob side, 0 ≤ l.2)
    (hdepth : sum_qty (relevant_side ob side) < quantity) :
    calculate_order_impact m symbol side quantity
      = some (ImpactResult.partialFill (sum_qty (relevant_side ob side))
          (relevant_side ob side).length
          (quantity - sum_qty (relevant_side ob side)))
    ∧ 0 < quantity - sum_qty (relevant_side ob side) := by
  have hpos : 0 < quantity - sum_qty (relevant_side ob side) := by linarith
  obtain ⟨h1, h2⟩ :=
    walk_levels_exhausts (relevant_side ob side) quantity 0 0 hnn hdepth
  refine ⟨?_, hpos⟩
  unfold calculate_order_impact
  rw [hob]
  simp only [relevant_side] at h1 h2 hpos ⊢
  rw [h1, h2, if_pos hpos]
  have hfill : quantity - (quantity - sum_qty (if side = Side.buy then ob.asks else ob.bids))
      = sum_qty (if side = Side.buy then ob.asks else ob.bids) := by ring
  rw [hfill]
  simp

/-- A concrete thin book: one ask level of quantity 2. -/
def c5_manager : OrderBookManager :=
  { orderbooks :=
      [("ETHUSDT", ⟨[((99 : ℚ), (1 : ℚ))], [((101 : ℚ), (2 : ℚ))], some 0⟩)],
    best_positions := [],
    last_update_ids := [("ETHUSDT", 7)] }

/-- C5 witness: buying 5 against total ask depth 2 yields the partial-fill
result with `unfilled_quantity = 3 > 0`. -/
theorem impact_insufficient_depth_witness :
    calculate_order_impact c5_manager "ETHUSDT" Side.buy 5
      = some (ImpactResult.partialFill 2 1 3) ∧ (0 : ℚ) < 3 := by
  have h := impact_insufficient_depth c5_manager "ETHUSDT" Side.buy 5
    ⟨[((99 : ℚ), (1 : ℚ))], [((101 : ℚ), (2 : ℚ))], some 0⟩
    (by rfl) (by norm_num)
    (by intro l hl; simp [relevant_side] at hl; simp [hl])
    (by simp [relevant_side, sum_qty]; norm_num)
  obtain ⟨h1, h2⟩ := h
  constructor
  · rw [h1]
    simp [relevant_side, sum_qty]
    norm_num
  · norm_num

/-- C1 witness: on the concrete snapshot-then-gap scenario, the gapped diff
at id 105 is applied, the book stays readable, and the best-positions store
is untouched. -/
theorem gapped_diff_applied_witness :
    lookup c1_after_gap.last_update_ids "BTCUSDT" = some 105
    ∧ get_orderbook c1_after_gap "BTCUSDT" ≠ none
    ∧ get_best_positions c1_after_gap "BTCUSDT"
        = get_best_positions c1_snapshot "BTCUSDT" :=
  gapped_diff_applied c1_snapshot "BTCUSDT"
    [((99 : ℚ), (2 : ℚ))] [((102 : ℚ), (2 : ℚ))] 105 100 1 (by rfl) (by norm_num)

/-- C2 counterexample: with balance 10000 and leverage 10 (which passes the
leverage check), a size of 1000 is within the claimed bound
`balance × MAX_POSITION_SIZE × leverage = 5000`, yet
`validate_new_position` rejects it on the size check — the code's size
limit is `balance × MAX_POSITION_SIZE = 500`, with no leverage factor. -/
theorem size_check_ignores_leverage_cex :
    (10 : ℤ) ≤ MAX_LEVERAGE
    ∧ (1000 : ℚ) ≤ 10000 * MAX_POSITION_SIZE * ((10 : ℤ) : ℚ)
    ∧ validate_new_position "BTCUSDT" 1000 10 10000
        = (false, ValidationOutcome.positionSizeExceedsMax) := by
  refine ⟨by decide, by norm_num [MAX_POSITION_SIZE], ?_⟩
  have h1 : ¬ MAX_LEVERAGE < (10 : ℤ) := by decide
  have h2 : (10000 : ℚ) * MAX_POSITION_SIZE < 1000 := by
    norm_num [MAX_POSITION_SIZE]
  unfold validate_new_position
  rw [if_neg h1, if_pos h2]

/-- C2 (amended): for every balance and every leverage passing the leverage
check, `validate_new_position` rejects on the size check exactly when the
size exceeds `balance × MAX_POSITION_SIZE` — leverage plays no role in the
size limit — and any size up to that bound is accepted outright (the
position-count, daily-loss and correlation checks are constant stubs that
always pass). -/
theorem validate_size_check (symbol : String) (size : ℚ) (leverage : ℤ)
    (account_balance : ℚ) (hlev : leverage ≤ MAX_LEVERAGE) :
    (validate_new_position symbol size leverage account_balance
        = (false, ValidationOutcome.positionSizeExceedsMax)
      ↔ account_balance * MAX_POSITION_SIZE < size)
    ∧ (size ≤ account_balance * MAX_POSITION_SIZE →
        validate_new_position symbol size leverage account_balance
          = (true, ValidationOutcome.validated)) := by
  have hnlev : ¬ MAX_LEVERAGE < leverage := not_lt.mpr hlev
  unfold validate_new_position
  rw [if_neg hnlev]
  by_cases hsz : account_balance * MAX_POSITION_SIZE < size
  · rw [if_pos hsz]
    constructor
    · simp [hsz]
    · intro hle
      exact absurd hsz (not_lt.mpr hle)
  · rw [if_neg hsz]
    constructor
    · constructor
      · intro h
        norm_num [get_open_positions, max_positions, check_daily_loss_limit,
          calculate_daily_pnl, max_daily_loss, check_correlation_risk] at h
      · intro h
        exact absurd h hsz
    · intro _
      norm_num [get_open_positions, max_positions, check_daily_loss_limit,
        calculate_daily_pnl, max_daily_loss, check_correlation_risk]

/-- C2 witness: with balance 100, leverage 1 and size 1 (within the code's
size bound 5), the position is accepted. -/
theorem validate_size_check_witness :
    validate_new_position "ETHUSDT" 1 1 100
      = (true, ValidationOutcome.validated) :=
  (validate_size_check "ETHUSDT" 1 1 100 (by decide)).2
    (by norm_num [MAX_POSITION_SIZE])

/-- C4: a position request violating both the leverage limit and the size
limit is rejected with the leverage reason — the first failing check in
source order — never with a later or generic reason. -/
theorem reject_leverage_first (symbol : String) (size : ℚ) (leverage : ℤ)
    (account_balance : ℚ) (hlev : MAX_LEVERAGE < leverage)
    (hsize : account_balance * MAX_POSITION_SIZE < size) :
    validate_new_position symbol size leverage account_balance
      = (false, ValidationOutcome.leverageExceedsMax) := by
  unfold validate_new_position
  rw [if_pos hlev]

/-- C4 witness: leverage 200 against the configured maximum 20, together
with size 1000000 against the size bound 500, is rejected for leverage. -/
theorem reject_leverage_first_witness :
    validate_new_position "BTCUSDT" 1000000 200 10000
      = (false, ValidationOutcome.leverageExceedsMax) :=
  reject_leverage_first "BTCUSDT" 1000000 200 10000 (by decide)
    (by norm_num [MAX_POSITION_SIZE])

/-- C6: for every position, `calculate_liquidation_price` returns
`entry × (1 − 1/leverage + maintenanceMarginRate)` for a LONG and
`entry × (1 + 1/leverage − maintenanceMarginRate)` for a SHORT; in
particular a LONG position with entry 100, leverage 10 and maintenance
margin rate 0.01 yields 91. -/
theorem liquidation_price_formula (p : Position) (entry mmr : ℚ) (lev : ℤ) :
    calculate_liquidation_price
        { p with side := PositionSide.LONG, entry_price := entry, leverage := lev }
        mmr
      = entry * (1 - 1 / (lev : ℚ) + mmr)
    ∧ calculate_liquidation_price
        { p with side := PositionSide.SHORT, entry_price := entry, leverage := lev }
        mmr
      = entry * (1 + 1 / (lev : ℚ) - mmr)
    ∧ calculate_liquidation_price
        { p with side := PositionSide.LONG, entry_price := 100, leverage := 10 }
        (1 / 100)
      = 91 := by
  refine ⟨rfl, rfl, ?_⟩
  show (100 : ℚ) * (1 - 1 / ((10 : ℤ) : ℚ) + 1 / 100) = 91
  norm_num

/-- A LONG position with entry 100, mark 110, size 1, leverage 10 and no
realized PnL, used to exercise `update_pnl`. -/
def c9_position : Position :=
  { side := PositionSide.LONG, status := PositionStatus.OPEN,
    entry_price := 100, mark_price := some 110, size := 1, leverage := 10,
    unrealized_pnl := 0, realized_pnl := 0, total_pnl := 0, roe := none }

/-- C9 counterexample: after `update_pnl` on a LONG position with entry
100, mark 110, size 1 and leverage 10, the recorded ROE is 100 — the code
stores `total_pnl / initial_margin × 100` (a percentage) — while the
claimed value `total PnL / (entry value / leverage)` is 1. -/
theorem roe_times_hundred_cex :
    (update_pnl c9_position).roe = some 100
    ∧ (update_pnl c9_position).total_pnl
        / (c9_position.size * c9_position.entry_price
            / ((c9_position.leverage : ℤ) : ℚ)) = 1
    ∧ (100 : ℚ) ≠ 1 := by
  refine ⟨?_, ?_, by norm_num⟩
  · norm_num [update_pnl, c9_position]
  · norm_num [update_pnl, c9_position]

/-- C9 (amended): after `update_pnl` on a position whose mark price is
present and non-zero and whose initial margin `entry value / leverage` is
non-zero, the unrealized PnL is `(mark − entry) × size` for a LONG and
`(entry − mark) × size` for a SHORT, the total PnL is
`unrealized + realized`, and the recorded ROE is
`total PnL / (entry value / leverage) × 100` — a percentage, 100 times the
ratio stated in the claim. -/
theorem update_pnl_formulas (p : Position) (mark : ℚ)
    (hm : p.mark_price = some mark) (hm0 : mark ≠ 0)
    (him : p.size * p.entry_price / ((p.leverage : ℤ) : ℚ) ≠ 0) :
    (update_pnl p).unrealized_pnl
      = (if p.side = PositionSide.LONG then (mark - p.entry_price) * p.size
         else (p.entry_price - mark) * p.size)
    ∧ (update_pnl p).total_pnl = (update_pnl p).unrealized_pnl + p.realized_pnl
    ∧ (update_pnl p).roe
      = some ((update_pnl p).total_pnl
          / (p.size * p.entry_price / ((p.leverage : ℤ) : ℚ)) * 100) := by
  obtain ⟨side, status, entry, markp, size, lev, u, r, t, roe⟩ := p
  simp only at hm him ⊢
  subst hm
  simp only [update_pnl]
  rw [if_neg hm0]
  simp only
  rw [if_neg him]
  by_cases hside : side = PositionSide.LONG
  · rw [if_pos hside, if_pos hside]
    refine ⟨by ring, ?_, ?_⟩ <;> trivial
  · rw [if_neg hside, if_neg hside]
    refine ⟨by ring, ?_, ?_⟩ <;> trivial

/-- C9 witness: on the concrete LONG position, the amended formulas give
unrealized 10, total 10, and ROE 100. -/
theorem update_pnl_formulas_witness :
    (update_pnl c9_position).unrealized_pnl = 10
    ∧ (update_pnl c9_position).total_pnl = 10
    ∧ (update_pnl c9_position).roe = some 100 := by
  have h := update_pnl_formulas c9_position 110 rfl (by norm_num)
    (by show (1 : ℚ) * 100 / ((10 : ℤ) : ℚ) ≠ 0; norm_num)
  refine ⟨?_, ?_, ?_⟩
  · rw [h.1]
    norm_num [c9_position]
  · rw [h.2.1, h.1]
    norm_num [c9_position]
  · rw [h.2.2, h.2.1, h.1]
    norm_num [c9_position]

/-- C7: for every entry signal carrying a (non-zero) risk percentage, stop
loss and entry price, with entry and stop distinct, the computed order
quantity is `balance × (riskPercentage/100) / |entry − stopLoss| ×
leverage`, leverage defaulting to 1 when unset — both in
`Signal.calculate_quantity` and in the processor's entry sizing. -/
theorem entry_quantity_formula (s : Signal) (balance e sl rp : ℚ)
    (he : s.entry_price = some e) (he0 : e ≠ 0)
    (hsl : s.stop_loss = some sl) (hsl0 : sl ≠ 0)
    (hrp : s.risk_percentage = some rp) (hrp0 : rp ≠ 0)
    (hne : e ≠ sl) :
    calculate_quantity s balance
      = balance * (rp / 100) / |e - sl| * leverage_or_one s.leverage
    ∧ entry_position_size s balance
      = some (balance * (rp / 100) / |e - sl| * leverage_or_one s.leverage) := by
  constructor
  · unfold calculate_quantity
    rw [he, hsl, hrp]
    simp only [he0, hsl0, hrp0, or_self, if_false, false_or, if_neg]
  · unfold entry_position_size
    rw [hrp, he, hsl]
    simp only [hrp0, if_false, hne, if_neg]

/-- The spec's end-to-end example signal: LONG entry at 100, stop 98, risk
1%, no explicit leverage. -/
def c7_signal : Signal :=
  { type := SignalType.ENTRY, status := SignalStatus.PENDING,
    entry_price := some 100, stop_loss := some 98, risk_percentage := some 1,
    quantity := none, leverage := none, time_validity := none,
    created_at := some 0 }

/-- C7 witness: entry 100, stop 98, risk 1%, balance 10000 gives quantity
`(10000 × 0.01) / 2 = 50` in both computations. -/
theorem entry_quantity_formula_witness :
    calculate_quantity c7_signal 10000 = 50
    ∧ entry_position_size c7_signal 10000 = some 50 := by
  have h := entry_quantity_formula c7_signal 10000 100 98 1 rfl (by norm_num)
    rfl (by norm_num) rfl (by norm_num) (by norm_num)
  constructor
  · rw [h.1]
    norm_num [leverage_or_one, c7_signal]
  · rw [h.2]
    norm_num [leverage_or_one, c7_signal]

/-- C8: a PENDING signal with a positive `time_validity` evaluated more
than `time_validity` minutes after `created_at` is set to EXPIRED — never
to EXECUTED — by `execute_signal_strategy`, whatever the market, risk and
placement outcomes; a signal still within its window
(`(now − createdAt)/60 ≤ timeValidity`) is not expired by the
evaluation. -/
theorem signal_expiry (s : Signal) (now c : ℚ) (tv : ℤ)
    (market_ok risk_ok exec_ok : Bool)
    (hst : s.status = SignalStatus.PENDING)
    (htv : s.time_validity = some tv) (htv0 : 0 < tv)
    (hc : s.created_at = some c) :
    (((tv : ℚ) < (now - c) / 60 →
      execute_signal_strategy s now market_ok risk_ok exec_ok
          = SignalStatus.EXPIRED
      ∧ execute_signal_strategy s now market_ok risk_ok exec_ok
          ≠ SignalStatus.EXECUTED)
    ∧ ((now - c) / 60 ≤ (tv : ℚ) →
      execute_signal_strategy s now market_ok risk_ok exec_ok
          ≠ SignalStatus.EXPIRED)) := by
  have htvne : tv ≠ 0 := by omega
  have hact : is_active s now = decide ((now - c) / 60 ≤ (tv : ℚ)) := by
    unfold is_active
    rw [hst, htv, hc]
    simp [htvne]
  constructor
  · intro h
    have hnle : ¬ (now - c) / 60 ≤ (tv : ℚ) := not_le.mpr h
    have : is_active s now = false := by rw [hact]; simp [hnle]
    unfold execute_signal_strategy
    rw [this]
    exact ⟨by simp, by simp⟩
  · intro h
    have : is_active s now = true := by rw [hact]; simp [h]
    unfold execute_signal_strategy
    rw [this]
    cases market_ok <;> cases risk_ok <;> cases exec_ok <;> simp

/-- The expiry scenario signal: `time_validity = 5` minutes, created at
time 0. -/
def c8_signal : Signal :=
  { type := SignalType.ENTRY, status := SignalStatus.PENDING,
    entry_price := some 100, stop_loss := some 98, risk_percentage := some 1,
    quantity := none, leverage := none, time_validity := some 5,
    created_at := some 0 }

/-- C8 witness: evaluated 6 minutes (360 s) after creation the signal is
EXPIRED; evaluated 1 minute (60 s) after creation it is not. -/
theorem signal_expiry_witness :
    execute_signal_strategy c8_signal 360 true true true = SignalStatus.EXPIRED
    ∧ execute_signal_strategy c8_signal 60 true true true
        ≠ SignalStatus.EXPIRED := by
  constructor
  · exact ((signal_expiry c8_signal 360 0 5 true true true rfl rfl
      (by norm_num) rfl).1 (by norm_num)).1
  · exact (signal_expiry c8_signal 60 0 5 true true true rfl rfl
      (by norm_num) rfl).2 (by norm_num)

/-- C10: a PENDING signal whose `time_validity` is unset is reported active
by `is_active` at every evaluation time, so `execute_signal_strategy` never
sets it to EXPIRED — and when the market, risk and placement checks pass it
is EXECUTED, arbitrarily late. -/
theorem no_validity_never_expires (s : Signal) (now : ℚ)
    (market_ok risk_ok exec_ok : Bool)
    (hst : s.status = SignalStatus.PENDING)
    (htv : s.time_validity = none) :
    is_active s now = true
    ∧ execute_signal_strategy s now market_ok risk_ok exec_ok
        ≠ SignalStatus.EXPIRED
    ∧ execute_signal_strategy s now true true true = SignalStatus.EXECUTED := by
  have hact : is_active s now = true := by
    unfold is_active
    rw [hst, htv]
    simp
  refine ⟨hact, ?_, ?_⟩
  · unfold execute_signal_strategy
    rw [hact]
    cases market_ok <;> cases risk_ok <;> cases exec_ok <;> simp
  · unfold execute_signal_strategy
    rw [hact]
    simp

/-- A pending signal with no validity window. -/
def c10_signal : Signal :=
  { type := SignalType.ENTRY, status := SignalStatus.PENDING,
    entry_price := some 100, stop_loss := some 98, risk_percentage := some 1,
    quantity := none, leverage := none, time_validity := none,
    created_at := some 0 }

/-- C10 witness: a million seconds after creation the signal is still
active, cannot expire, and executes when all checks pass. -/
theorem no_validity_never_expires_witness :
    is_active c10_signal 1000000 = true
    ∧ execute_signal_strategy c10_signal 1000000 false false false
        ≠ SignalStatus.EXPIRED
    ∧ execute_signal_strategy c10_signal 1000000 true true true
        = SignalStatus.EXECUTED :=
  no_validity_never_expires c10_signal 1000000 false false false rfl rfl

end Top1
